import Mathlib

/-!
Verification of the block-storage control plane ("storage.blocks" service,
`src/services/folders.service.js`, third document, lines 1730-5584, together
with the mixins it repeats).  The Lean definitions below are a shallow
embedding of the JavaScript source: external collaborators (the orchestrator
pod API, the engine exec facility, the disk / node / folder services) are
modelled as an explicit environment record, entity-store writes are modelled
as pure record updates, and every engine command issued through the command
gateway is collected in an explicit trace (a list of argv lists).
-/

namespace BlockStorage

/-- Result of one in-container command execution (`v1.kubernetes.exec`). -/
structure ExecResult where
  stdout : String
  stderr : String
deriving Repr, DecidableEq

/-- A `MoleculerClientError` is modelled by its HTTP code and its error type
string, the two fields every claim talks about. -/
structure MErr where
  httpCode : Nat
  errType : String
deriving Repr, DecidableEq

/-- Runtime failure of a handler or method: either a thrown
`MoleculerClientError`, or a JavaScript ReferenceError (an identifier that
is not defined in scope), or a JavaScript TypeError (for example a property
access on `undefined`, or an ES6 class invoked without `new`). -/
inductive RunErr
  | app (e : MErr)
  | jsReference (ident : String)
  | jsType (detail : String)
deriving Repr, DecidableEq

/-- The TypeError raised when the source executes
`MoleculerClientError(...)` without `new` (an ES6 class cannot be invoked as
a function). -/
def noNewTypeError : RunErr :=
  RunErr.jsType "Class constructor MoleculerClientError cannot be invoked without new"

/-- The orchestrator view of one pod: `metadata.uid`, `status.phase` and
`status.podIP`. -/
structure PodInfo where
  uid : String
  phase : String
  podIP : String
deriving Repr, DecidableEq

/-- Parsed payload of `longhorn info` (`getBlockControllerInfo`). -/
structure FrontendInfo where
  frontendState : String
  endpoint : String
deriving Repr, DecidableEq

/-- A disk record as returned by the disks service. -/
structure Disk where
  id : String
  node : String
deriving Repr, DecidableEq

/-- A node record as returned by `v1.nodes.resolve`. -/
structure NodeInfo where
  id : String
  hostname : String
deriving Repr, DecidableEq

/-- A folder record as returned by the folders service. -/
structure Folder where
  id : String
  path : String
deriving Repr, DecidableEq

/-- A replica embedded in a Block, fields from the entity schema
(lines 451-516) and from `createReplica` (lines 5172-5184). -/
structure Replica where
  id : String
  pod : Option String
  name : String
  disk : String
  node : String
  folder : String
  healthy : Bool
  attached : Bool
  status : String
  ip : Option String
  endpoint : Option String
deriving Repr, DecidableEq

/-- The Block entity, fields from the schema at lines 393-617.  The source
field `namespace` is a Lean keyword and is renamed `ns` here. -/
structure Block where
  id : String
  name : String
  size : Nat
  node : String
  cluster : String
  ns : String
  controller : Option String
  device : Option String
  mountPoint : String
  replicaCount : Nat
  replicas : List Replica
  formatted : Bool
  mounted : Bool
  online : Bool
  frontendState : Bool
  locality : String
  healthy : Bool
deriving Repr, DecidableEq

/-- Environment of external collaborators.  `readPod` is
`v1.kubernetes.readNamespacedPod (cluster, namespace, name)`; `engineExec`
is the engine side of `v1.kubernetes.exec` (argv to stdout/stderr);
`resolveNode` is `v1.nodes.resolve`; `provisionFolder` is
`v1.storage.folders.provision (prefix, disk)` (modelled as total: the claims
under study never hinge on its failure); `resolveFolder` is
`v1.storage.folders.resolve` (likewise total); `createPod` is
`v1.kubernetes.createNamespacedPod` keyed by pod name (`none` models a null
reply); `getNodeDisks` is `v1.storage.disks.getNodeDisks`; `availableDisks`
is `v1.storage.disks.availableDisks (size, exclude, limit)`; `parseInfo`
models `JSON.parse` of `longhorn info` stdout (`none` = parse error);
`freshId` models `uuid()` and `moniker` models `Moniker.choose()`. -/
structure Env where
  readPod : String → String → String → Option PodInfo
  engineExec : List String → ExecResult
  resolveNode : String → Option NodeInfo
  provisionFolder : String → String → Folder
  resolveFolder : String → Folder
  createPod : String → Option PodInfo
  getNodeDisks : String → List Disk
  availableDisks : Nat → List String → Nat → List Disk
  parseInfo : String → Option FrontendInfo
  freshId : String
  moniker : String

/-- Substring machinery for the stringly-typed stderr checks
(`String.prototype.includes` in the source).  `leadMatch needle hay` is true
when `needle` is an initial segment of `hay`. -/
def leadMatch : List Char → List Char → Bool
  | [], _ => true
  | _ :: _, [] => false
  | a :: as, b :: bs => a == b && leadMatch as bs

/-- True when `needle` occurs as a contiguous substring of `hay`;
this is `hay.includes(needle)` of JavaScript. -/
def subMatch (needle : List Char) : List Char → Bool
  | [] => leadMatch needle []
  | c :: cs => leadMatch needle (c :: cs) || subMatch needle cs

/-- Command gateway `exec(ctx, block, cmd)`, lines 4755-4790 (repeated
verbatim in `block.mixin.js` lines 394-430).  The second component of the
result is the list of argvs actually issued through `v1.kubernetes.exec`. -/
def exec (env : Env) (block : Block) (cmd : List String) :
    Except MErr ExecResult × List (List String) :=
  match block.controller with
  | none => (Except.error ⟨404, "NO_CONTROLLER"⟩, [])
  | some _ =>
    match env.readPod block.cluster block.ns block.name with
    | none => (Except.error ⟨404, "POD_NOT_FOUND"⟩, [])
    | some pod =>
      if pod.phase ≠ "Running" then
        (Except.error ⟨500, "POD_NOT_RUNNING"⟩, [])
      else
        (Except.ok (env.engineExec cmd), [cmd])

/-- Snapshot operator method `createSnapshot`, lines 4460-4471. -/
def createSnapshot (env : Env) (block : Block) :
    Except MErr ExecResult × List (List String) :=
  exec env block ["longhorn", "snapshots", "create"]

/-- Snapshot operator method `revertSnapshot`, lines 4483-4494. -/
def revertSnapshot (env : Env) (block : Block) (snapshotName : String) :
    Except MErr ExecResult × List (List String) :=
  exec env block ["longhorn", "snapshots", "revert", snapshotName]

/-- Snapshot operator method `listSnapshots`, lines 4504-4518; the
header-stripping parse of stdout happens after the command is issued and is
not needed by the claims. -/
def listSnapshots (env : Env) (block : Block) :
    Except MErr ExecResult × List (List String) :=
  exec env block ["longhorn", "snapshots", "ls"]

/-- Snapshot operator method `removeSnapshot`, lines 4530-4541. -/
def removeSnapshot (env : Env) (block : Block) (snapshotName : String) :
    Except MErr ExecResult × List (List String) :=
  exec env block ["longhorn", "snapshots", "rm", snapshotName]

/-- Snapshot operator method `purgeSnapshots`, lines 4564-4578. -/
def purgeSnapshots (env : Env) (block : Block) (skipInProgress : Bool) :
    Except MErr ExecResult × List (List String) :=
  exec env block
    (["longhorn", "snapshots", "purge"] ++
      if skipInProgress then ["--skip-if-in-progress"] else [])

/-- Snapshot operator method `purgeSnapshotsStatus`, lines 4589-4599. -/
def purgeSnapshotsStatus (env : Env) (block : Block) :
    Except MErr ExecResult × List (List String) :=
  exec env block ["longhorn", "snapshots", "purge-status"]

/-- Snapshot operator method `getSnapshotInfo`, lines 4609-4619; the JSON
parse of stdout (line 4618) happens after the command is issued. -/
def getSnapshotInfo (env : Env) (block : Block) :
    Except MErr ExecResult × List (List String) :=
  exec env block ["longhorn", "snapshots", "info"]

/-- Snapshot operator method `cloneSnapshot`, lines 4633-4652. -/
def cloneSnapshot (env : Env) (block : Block)
    (snapshotName fromControllerAddress fromVolumeName
      fromControllerInstanceName : String) :
    Except MErr ExecResult × List (List String) :=
  exec env block
    ["longhorn", "snapshots", "clone", "--snapshot-name", snapshotName,
     "--from-controller-address", fromControllerAddress,
     "--from-volume-name", fromVolumeName,
     "--from-controller-instance-name", fromControllerInstanceName]

/-- Snapshot operator method `cloneSnapshotStatus`, lines 4664-4675. -/
def cloneSnapshotStatus (env : Env) (block : Block) (snapshotName : String) :
    Except MErr ExecResult × List (List String) :=
  exec env block ["longhorn", "snapshots", "clone-status", snapshotName]

/-- Snapshot operator method `startSnapshotHash`, lines 4687-4698. -/
def startSnapshotHash (env : Env) (block : Block) (snapshotName : String) :
    Except MErr ExecResult × List (List String) :=
  exec env block ["longhorn", "snapshots", "hash", snapshotName]

/-- Snapshot operator method `cancelSnapshotHash`, lines 4710-4721. -/
def cancelSnapshotHash (env : Env) (block : Block) (snapshotName : String) :
    Except MErr ExecResult × List (List String) :=
  exec env block ["longhorn", "snapshots", "hash-cancel", snapshotName]

/-- Snapshot operator method `getSnapshotHashStatus`, lines 4733-4744; the
JSON parse of stdout (line 4743) happens after the command is issued. -/
def getSnapshotHashStatus (env : Env) (block : Block) (snapshotName : String) :
    Except MErr ExecResult × List (List String) :=
  exec env block ["longhorn", "snapshots", "hash-status", snapshotName]

/-- Shared prologue of every snapshot action handler (lines 3095-3110 and
its eleven textual repetitions, also `block.snapshots.mixin.js` lines
53-70): the not-found branch and the offline branch each execute
`return MoleculerClientError(...)`.  `MoleculerClientError` is an ES6 class
and the source invokes it WITHOUT `new` (and without `throw`), so at
runtime the invocation itself throws a TypeError — the intended
404 NOT_FOUND / 400 BAD_REQUEST error object is never constructed, the
handler fails with the TypeError, and no engine command is issued.  Only
with a found, online block is the snapshot method invoked; a
`MoleculerClientError` thrown by the method (through `exec`) propagates. -/
def snapshotGuard (blockOpt : Option Block)
    (method : Block → Except MErr ExecResult × List (List String)) :
    Except RunErr ExecResult × List (List String) :=
  match blockOpt with
  | none => (Except.error noNewTypeError, [])
  | some block =>
    if !block.online then (Except.error noNewTypeError, [])
    else
      match method block with
      | (Except.error e, tr) => (Except.error (RunErr.app e), tr)
      | (Except.ok r, tr) => (Except.ok r, tr)

/-- Action `createSnapshot` (POST /:id/snapshots/create), lines 3083-3113. -/
def createSnapshotAction (env : Env) (blockOpt : Option Block) :
    Except RunErr ExecResult × List (List String) :=
  snapshotGuard blockOpt (fun block => createSnapshot env block)

/-- Action `revertSnapshot` (POST /:id/snapshots/revert), lines 3124-3159. -/
def revertSnapshotAction (env : Env) (blockOpt : Option Block)
    (snapshotName : String) : Except RunErr ExecResult × List (List String) :=
  snapshotGuard blockOpt (fun block => revertSnapshot env block snapshotName)

/-- Action `listSnapshots` (GET /:id/snapshots/list), lines 3169-3199. -/
def listSnapshotsAction (env : Env) (blockOpt : Option Block) :
    Except RunErr ExecResult × List (List String) :=
  snapshotGuard blockOpt (fun block => listSnapshots env block)

/-- Action `removeSnapshot` (POST /:id/snapshots/remove), lines 3210-3245. -/
def removeSnapshotAction (env : Env) (blockOpt : Option Block)
    (snapshotName : String) : Except RunErr ExecResult × List (List String) :=
  snapshotGuard blockOpt (fun block => removeSnapshot env block snapshotName)

/-- Action `purgeSnapshots` (POST /:id/snapshots/purge), lines 3256-3291. -/
def purgeSnapshotsAction (env : Env) (blockOpt : Option Block)
    (skipInProgress : Bool) : Except RunErr ExecResult × List (List String) :=
  snapshotGuard blockOpt (fun block => purgeSnapshots env block skipInProgress)

/-- Action `purgeSnapshotsStatus` (GET /:id/snapshots/purge-status), lines
3301-3331. -/
def purgeSnapshotsStatusAction (env : Env) (blockOpt : Option Block) :
    Except RunErr ExecResult × List (List String) :=
  snapshotGuard blockOpt (fun block => purgeSnapshotsStatus env block)

/-- Action `getSnapshotInfo` (GET /:id/snapshots/info), lines 3342-3372. -/
def getSnapshotInfoAction (env : Env) (blockOpt : Option Block) :
    Except RunErr ExecResult × List (List String) :=
  snapshotGuard blockOpt (fun block => getSnapshotInfo env block)

/-- Action `cloneSnapshot` (POST /:id/snapshots/clone), lines 3386-3437. -/
def cloneSnapshotAction (env : Env) (blockOpt : Option Block)
    (snapshotName fromControllerAddress fromVolumeName
      fromControllerInstanceName : String) :
    Except RunErr ExecResult × List (List String) :=
  snapshotGuard blockOpt (fun block =>
    cloneSnapshot env block snapshotName fromControllerAddress fromVolumeName
      fromControllerInstanceName)

/-- Action `cloneSnapshotStatus` (GET /:id/snapshots/clone-status), lines
3448-3483. -/
def cloneSnapshotStatusAction (env : Env) (blockOpt : Option Block)
    (snapshotName : String) : Except RunErr ExecResult × List (List String) :=
  snapshotGuard blockOpt (fun block => cloneSnapshotStatus env block snapshotName)

/-- Action `startSnapshotHash` (POST /:id/snapshots/hash), lines 3494-3529. -/
def startSnapshotHashAction (env : Env) (blockOpt : Option Block)
    (snapshotName : String) : Except RunErr ExecResult × List (List String) :=
  snapshotGuard blockOpt (fun block => startSnapshotHash env block snapshotName)

/-- Action `cancelSnapshotHash` (POST /:id/snapshots/hash-cancel), lines
3540-3575. -/
def cancelSnapshotHashAction (env : Env) (blockOpt : Option Block)
    (snapshotName : String) : Except RunErr ExecResult × List (List String) :=
  snapshotGuard blockOpt (fun block => cancelSnapshotHash env block snapshotName)

/-- Action `getSnapshotHashStatus` (GET /:id/snapshots/hash-status), lines
3585-3620. -/
def getSnapshotHashStatusAction (env : Env) (blockOpt : Option Block)
    (snapshotName : String) : Except RunErr ExecResult × List (List String) :=
  snapshotGuard blockOpt (fun block => getSnapshotHashStatus env block snapshotName)

/-- The stderr needle of `removeReplicaFromFrontend`, line 5487.  Note the
LEADING SPACE, copied verbatim from the source:
`result.stderr.includes(" cannot remove last replica if volume is up")`. -/
def rmReplicaNeedle : List Char :=
  " cannot remove last replica if volume is up".toList

/-- The stderr needle of `addReplicaToFrontend`, line 5397. -/
def addReplicaNeedle : List Char :=
  "Error running add replica command".toList

/-- Replica driver `removeReplicaFromFrontend(ctx, block, replica)`, lines
5470-5502.  A replica without an endpoint raises 500 NO_REPLICA_ENDPOINT
before any command; otherwise `longhorn rm-replica <endpoint>` is issued and
a stderr containing the leading-space needle raises
500 CANNOT_REMOVE_LAST_REPLICA; otherwise the in-memory replica is marked
`attached = false` and persisted.  The closing
`updateFrontendState(ctx, updated)` call of the source receives the
un-awaited `updateEntity` Promise (line 5496): property access on a Promise
yields `undefined`, so `getBlockControllerInfo` rejects, the rejection is
swallowed by the `.catch(err => null)` inside `updateFrontendState`, and the
call returns without doing anything; it is therefore not modelled. -/
def removeReplicaFromFrontend (env : Env) (block : Block) (replica : Replica) :
    Except MErr Replica × List (List String) :=
  match replica.endpoint with
  | none => (Except.error ⟨500, "NO_REPLICA_ENDPOINT"⟩, [])
  | some ep =>
    match exec env block ["longhorn", "rm-replica", ep] with
    | (Except.error e, tr) => (Except.error e, tr)
    | (Except.ok res, tr) =>
      if subMatch rmReplicaNeedle res.stderr.toList then
        (Except.error ⟨500, "CANNOT_REMOVE_LAST_REPLICA"⟩, tr)
      else
        (Except.ok { replica with attached := false }, tr)

/-- Replica driver `removeReplicaFromBlock(ctx, block, replica)`, lines
5321-5349.  The local `updated` is ALWAYS `undefined` here: when
`removeReplicaFromFrontend` resolves, its value is `updateFrontendState`
applied to the un-awaited `updateEntity` Promise (line 5496) — a Promise
has no `.controller`, so `getBlockControllerInfo` rejects, the rejection is
swallowed by `.catch(err => null)` and `updateFrontendState` returns
`undefined`; and when `removeReplicaFromFrontend` rejects, the
`.catch` of lines 5323-5326 also yields `undefined`.  After the best-effort
pod deletion and folder deprovision (lines 5328-5339, orchestrator / folder
effects outside the engine-command trace), line 5343 then evaluates
`updated.replicas.filter(...)` on `undefined` and throws a TypeError, so
the method NEVER updates the entity and never returns.  The trace keeps the
engine command the caught frontend-removal attempt may have issued. -/
def removeReplicaFromBlock (env : Env) (block : Block) (replica : Replica) :
    Except RunErr Block × List (List String) :=
  let attempt := removeReplicaFromFrontend env block replica
  (Except.error (RunErr.jsType "updated.replicas"), attempt.2)

/-- Engine controller driver `deleteBlockController(ctx, block)`, lines
5076-5107.  The result triple is (outcome, entity state after the call,
names of pods deleted through `v1.kubernetes.deleteNamespacedPod`): a null
controller handle raises 404 BLOCK_CONTROLLER_NOT_FOUND before anything
else; a mounted block raises 409 BLOCK_CONTROLLER_MOUNTED; otherwise the
controller pod (named `block.name`) is deleted and the entity is updated
with `controller = null, online = false`. -/
def deleteBlockController (block : Block) :
    Except MErr Unit × Block × List String :=
  match block.controller with
  | none => (Except.error ⟨404, "BLOCK_CONTROLLER_NOT_FOUND"⟩, block, [])
  | some _ =>
    if block.mounted then
      (Except.error ⟨409, "BLOCK_CONTROLLER_MOUNTED"⟩, block, [])
    else
      (Except.ok (), { block with controller := none, online := false },
        [block.name])

/-- Volume reconciler `checkControllerPods(ctx, block)`, lines 3973-4013:
read the pod named `block.name`; missing pod raises
404 CONTROLLER_NOT_FOUND; a non-Running phase flips the entity offline with
`online = false, mounted = false, frontendState = false, device = null`; a
Running phase with `block.online == false` sets `online = true`; otherwise
the block is returned untouched. -/
def checkControllerPods (env : Env) (block : Block) : Except MErr Block :=
  match env.readPod block.cluster block.ns block.name with
  | none => Except.error ⟨404, "CONTROLLER_NOT_FOUND"⟩
  | some controller =>
    if controller.phase ≠ "Running" then
      Except.ok { block with
        online := false, mounted := false, frontendState := false,
        device := none }
    else if controller.phase = "Running" && !block.online then
      Except.ok { block with online := true }
    else
      Except.ok block

/-- Renders an optional string the way a null lands in a JS argv array. -/
def optArg (s : Option String) : String := s.getD "null"

/-- Volume reconciler `formatBlock(ctx, block, options)`, lines 4148-4186,
with the defaults `type = "ext4"` and `reserve = 0` used by every caller in
scope (`updateFrontendState` passes no options, the REST action passes only
`force`).  The numeric reserve `0` is rendered as the string "0" in the
argv. -/
def formatBlock (env : Env) (block : Block) (force : Bool) :
    Except MErr Block × List (List String) :=
  if block.formatted && !force then
    (Except.error ⟨409, "BLOCK_FORMATED"⟩, [])
  else if block.mounted then
    (Except.error ⟨409, "BLOCK_MOUNTED"⟩, [])
  else
    match exec env block
        ["mkfs", "-t", "ext4", "-m", "0", "-L", block.name,
          optArg block.device] with
    | (Except.error e, tr) => (Except.error e, tr)
    | (Except.ok _, tr) => (Except.ok { block with formatted := true }, tr)

/-- Volume reconciler `mountBlock(ctx, block, options)`, lines 4197-4231.
The mount-point folder resolution (`v1.storage.folders.resolve`) is modelled
as total. -/
def mountBlock (env : Env) (block : Block) (force : Bool) :
    Except MErr Block × List (List String) :=
  if block.mounted && !force then
    (Except.error ⟨409, "BLOCK_MOUNTED"⟩, [])
  else if !block.formatted then
    (Except.error ⟨409, "BLOCK_NOT_FORMATED"⟩, [])
  else
    let mountPoint := env.resolveFolder block.mountPoint
    match exec env block ["mount", optArg block.device, mountPoint.path] with
    | (Except.error e, tr) => (Except.error e, tr)
    | (Except.ok _, tr) => (Except.ok { block with mounted := true }, tr)

/-- Volume reconciler `unmountBlock(ctx, block, options)`, lines 4242-4267. -/
def unmountBlock (env : Env) (block : Block) (force : Bool) :
    Except MErr Block × List (List String) :=
  if !block.mounted && !force then
    (Except.error ⟨409, "BLOCK_NOT_MOUNTED"⟩, [])
  else
    let mountPoint := env.resolveFolder block.mountPoint
    match exec env block ["umount", mountPoint.path] with
    | (Except.error e, tr) => (Except.error e, tr)
    | (Except.ok _, tr) => (Except.ok { block with mounted := false }, tr)

/-- Engine controller driver `getBlockControllerInfo(ctx, block)`, lines
5015-5033: a null controller handle raises 404 BLOCK_CONTROLLER_NOT_FOUND,
then `longhorn info` is issued and its stdout JSON-parsed; a parse failure
(JS SyntaxError from `JSON.parse`) is modelled as a 500 JSON_PARSE_ERROR. -/
def getBlockControllerInfo (env : Env) (block : Block) :
    Except MErr FrontendInfo × List (List String) :=
  match block.controller with
  | none => (Except.error ⟨404, "BLOCK_CONTROLLER_NOT_FOUND"⟩, [])
  | some _ =>
    match exec env block ["longhorn", "info"] with
    | (Except.error e, tr) => (Except.error e, tr)
    | (Except.ok res, tr) =>
      match env.parseInfo res.stdout with
      | none => (Except.error ⟨500, "JSON_PARSE_ERROR"⟩, tr)
      | some info => (Except.ok info, tr)

/-- Volume reconciler `updateFrontendState(ctx, block)`, lines 5109-5145:
any `getBlockControllerInfo` failure is swallowed by `.catch(err => null)`
and the method returns undefined (modelled `Except.ok none`); otherwise the
entity is merged with the derived `frontendState`, `device`, `locality` and
`healthy` and, exactly when the persisted `frontendState` differs from the
in-memory one, the follow-ons run: frontend up and not mounted → format (if
unformatted) then mount; frontend down and mounted → unmount.  Per source,
the value returned is the entity after the (possible) format, not after the
mount (line 4138's result is discarded). -/
def updateFrontendState (env : Env) (block : Block) :
    Except MErr (Option Block) × List (List String) :=
  match getBlockControllerInfo env block with
  | (Except.error _, tr) => (Except.ok none, tr)
  | (Except.ok info, tr) =>
    let fs := info.frontendState = "up"
    let updated : Block := { block with
      frontendState := fs,
      device := if fs then some info.endpoint else none,
      locality :=
        if block.replicas.any (fun r => r.healthy && r.node = block.node)
        then "local" else "remote",
      healthy := block.replicas.all (fun r => r.healthy) }
    if block.frontendState ≠ updated.frontendState then
      if updated.frontendState && !updated.mounted then
        match (if !updated.formatted then formatBlock env updated false
               else (Except.ok updated, [])) with
        | (Except.error e, tr2) => (Except.error e, tr ++ tr2)
        | (Except.ok u2, tr2) =>
          match mountBlock env u2 false with
          | (Except.error e, tr3) => (Except.error e, tr ++ tr2 ++ tr3)
          | (Except.ok _, tr3) => (Except.ok (some u2), tr ++ tr2 ++ tr3)
      else if !updated.frontendState && updated.mounted then
        match unmountBlock env updated false with
        | (Except.error e, tr2) => (Except.error e, tr ++ tr2)
        | (Except.ok _, tr2) => (Except.ok (some updated), tr ++ tr2)
      else (Except.ok (some updated), tr)
    else (Except.ok (some updated), tr)

/-- Replica driver `addReplicaToFrontend(ctx, block, replica, options)`,
lines 5361-5412, with the empty options every caller in scope passes.  An
unhealthy replica or an offline block is skipped with a log (`Except.ok
none`); otherwise `longhorn add-replica ... <endpoint>` is issued and a
stderr containing "Error running add replica command" raises
500 LONGHORN_ADD_REPLICA_ERROR; otherwise the replica is marked
`attached = true`.  As in `removeReplicaFromFrontend`, the closing
`updateFrontendState` call receives the un-awaited `updateEntity` Promise
(line 5406) and therefore does nothing; it is not modelled. -/
def addReplicaToFrontend (env : Env) (block : Block) (replica : Replica) :
    Except MErr (Option Replica) × List (List String) :=
  if !replica.healthy then (Except.ok none, [])
  else if !block.online then (Except.ok none, [])
  else
    let cmd :=
      ["longhorn", "add-replica", "--replica-instance-name", replica.name,
       "--size", toString block.size ++ "gb",
       "--current-size", toString block.size ++ "gb",
       optArg replica.endpoint]
    match exec env block cmd with
    | (Except.error e, tr) => (Except.error e, tr)
    | (Except.ok res, tr) =>
      if subMatch addReplicaNeedle res.stderr.toList then
        (Except.error ⟨500, "LONGHORN_ADD_REPLICA_ERROR"⟩, tr)
      else
        (Except.ok (some { replica with attached := true }), tr)

/-- Replica driver `createReplicaPod(ctx, block, replica, folder)`, lines
5206-5298: the node is resolved again without a null check (a null would
crash on `node.hostname`, modelled as a 500 TYPE_ERROR); the replica pod is
submitted, a null reply deprovisions the folder and raises
500 POD_CREATION_ERROR; otherwise `replica.pod` is set to the pod uid.  The
pod body (image, ports 10000-10014, hostPath mount) carries no state the
claims depend on and is not modelled. -/
def createReplicaPod (env : Env) (replica : Replica) :
    Except MErr Replica :=
  match env.resolveNode replica.node with
  | none => Except.error ⟨500, "TYPE_ERROR"⟩
  | some _ =>
    match env.createPod replica.name with
    | none => Except.error ⟨500, "POD_CREATION_ERROR"⟩
    | some pod => Except.ok { replica with pod := some pod.uid }

/-- Replica driver `createReplica(ctx, block, disk)`, lines 5155-5194:
resolve the disk's node (404 NOT_FOUND when missing), provision a
"block-replica" folder on the disk, build the pending replica record
(lines 5172-5184), create its pod, and append it to `block.replicas`. -/
def createReplica (env : Env) (block : Block) (disk : Disk) :
    Except MErr Block :=
  match env.resolveNode disk.node with
  | none => Except.error ⟨404, "NOT_FOUND"⟩
  | some node =>
    let folder := env.provisionFolder "block-replica" disk.id
    let name := "block-replica-" ++ block.name ++ "-" ++ env.moniker
    let config : Replica :=
      { id := env.freshId, pod := none, name := name, disk := disk.id,
        node := node.id, folder := folder.id, healthy := false,
        attached := false, status := "pending", ip := none, endpoint := none }
    match createReplicaPod env config with
    | Except.error e => Except.error e
    | Except.ok replica =>
      Except.ok { block with replicas := block.replicas ++ [replica] }

/-- Engine controller driver `createBlockController(ctx, block, options)`,
lines 4800-4941, with the empty options `provisionBlock` passes (so none of
the conditional flags is emitted): an existing controller handle raises
409 BLOCK_CONTROLLER_EXISTS; a missing node raises 404 NODE_NOT_FOUND;
otherwise the controller pod is submitted (a rejected orchestrator call
propagates, modelled 500 POD_CREATE_FAILED) and the entity persists
`controller = pod.uid`.  `frontend` is the configured
`storage.blocks.frontend`. -/
def createBlockController (env : Env) (frontend : String) (block : Block) :
    Except MErr (Block × List String) :=
  match block.controller with
  | some _ => Except.error ⟨409, "BLOCK_CONTROLLER_EXISTS"⟩
  | none =>
    match env.resolveNode block.node with
    | none => Except.error ⟨404, "NODE_NOT_FOUND"⟩
    | some _ =>
      let command :=
        ["longhorn", "controller", "--listen", "0.0.0.0:9501",
         "--size", toString block.size ++ "gb",
         "--current-size", toString block.size ++ "gb",
         "--frontend", frontend] ++
        (block.replicas.flatMap (fun r => ["--replica", optArg r.endpoint])) ++
        [block.name]
      match env.createPod block.name with
      | none => Except.error ⟨500, "POD_CREATE_FAILED"⟩
      | some pod =>
        Except.ok ({ block with controller := some pod.uid }, command)

/-- The loop at lines 4074-4078: create one replica per available disk,
sequentially, stopping at the first failure. -/
def createReplicasOnDisks (env : Env) (block : Block) :
    List Disk → Except MErr Block
  | [] => Except.ok block
  | d :: ds =>
    match createReplica env block d with
    | Except.error e => Except.error e
    | Except.ok b => createReplicasOnDisks env b ds

/-- Volume reconciler `provisionBlock(ctx, name, node, size, replicas)`,
lines 4026-4088: resolve the node's disks (404 NODE_STORAGE_NOT_FOUND when
empty); provision the mount-point folder on the first disk; create the
Block entity with an empty replica list and the schema defaults; create the
controller; query the available disks with a `size * 1024` MiB budget and a
limit of `replicas` (the action has no exclude list, modelled `[]`); create
one replica per returned disk; and return the block together with the
warning flag of lines 4081-4084 (`replicas.length < replicas` requested). -/
def provisionBlock (env : Env) (frontend cluster nsCfg : String)
    (name : String) (node : NodeInfo) (size : Nat) (replicas : Nat) :
    Except MErr (Block × Bool) :=
  match env.getNodeDisks node.id with
  | [] => Except.error ⟨404, "NODE_STORAGE_NOT_FOUND"⟩
  | d0 :: _ =>
    let mountPoint := env.provisionFolder "block" d0.id
    let block : Block :=
      { id := env.freshId, name := name, size := size, node := node.id,
        cluster := cluster, ns := nsCfg, controller := none, device := none,
        mountPoint := mountPoint.id, replicaCount := replicas, replicas := [],
        formatted := false, mounted := false, online := false,
        frontendState := false, locality := "unknown", healthy := false }
    match createBlockController env frontend block with
    | Except.error e => Except.error e
    | Except.ok (blockC, _) =>
      let avail := env.availableDisks (size * 1024) [] replicas
      match createReplicasOnDisks env blockC avail with
      | Except.error e => Except.error e
      | Except.ok updated =>
        Except.ok (updated, decide (updated.replicas.length < replicas))

/-- The under-replicated loop of `balanceBlock`, lines 3800-3821: pick one
available disk excluding those already hosting replicas; when none is found
warn and return the block immediately (flag `true`); otherwise create a
replica and continue.  The counter is the number of replicas still to add. -/
def balanceUp (env : Env) (size : Nat) : Nat → Block → Except MErr Block × Bool
  | 0, b => (Except.ok b, false)
  | n + 1, b =>
    match env.availableDisks (size * 1024) (b.replicas.map (fun r => r.disk)) 1 with
    | [] => (Except.ok b, true)
    | disk :: _ =>
      match createReplica env b disk with
      | Except.error e => (Except.error e, false)
      | Except.ok b2 => balanceUp env size n b2

/-- The over-replicated loop of `balanceBlock`, lines 3827-3834: walk the
ORIGINAL `replicas` array from the tail (index `length - 1`) down to index
`desired`; an index whose replica sits on `block.node` is skipped without
any call, any other index is fed to `removeReplicaFromBlock` — which (see
its comment) always throws a TypeError, so the first non-local index aborts
the loop with the entity untouched.  The counter `c` means `c` indices
remain; the index under scrutiny is `desired + c - 1`. -/
def balanceDownLoop (env : Env) (orig : List Replica) (blockNode : String)
    (desired : Nat) : Nat → Block → Except RunErr Block × List (List String)
  | 0, b => (Except.ok b, [])
  | c + 1, b =>
    match orig[desired + c]? with
    | none => balanceDownLoop env orig blockNode desired c b
    | some r =>
      if r.node = blockNode then balanceDownLoop env orig blockNode desired c b
      else
        match removeReplicaFromBlock env b r with
        | (Except.error e, tr) => (Except.error e, tr)
        | (Except.ok b2, tr) =>
          match balanceDownLoop env orig blockNode desired c b2 with
          | (res, tr2) => (res, tr ++ tr2)

/-- Volume reconciler `balanceBlock(ctx, block)`, lines 3788-3866.  The
desired count is `block.replicaCount || 3` (a zero count falls back to 3).
Under-replication runs `balanceUp` (its no-disk case returns early without
the final `updateFrontendState`, line 3813).  Over-replication runs
`balanceDownLoop`: local tail replicas are skipped, and the first non-local
tail replica makes `removeReplicaFromBlock` throw its TypeError, which
propagates out of `balanceBlock`; only a loop that skips everything falls
through to `updateFrontendState`.  When the count is already the desired
one and `block.locality == "remote"`, the node's disks are queried: an
empty answer only warns, while a non-empty answer reaches
`this.createReplica(ctx, updated, disk)` (line 3851) whose arguments
`updated` and `disk` are NOT DEFINED in that scope, so evaluating `updated`
throws a JavaScript ReferenceError.  The flag in the result records whether
a warning was logged. -/
def desiredCount (block : Block) : Nat :=
  if block.replicaCount = 0 then 3 else block.replicaCount

def balanceBlock (env : Env) (block : Block) : Except RunErr Block × Bool :=
  let replicas := block.replicas
  let desiredReplicas := desiredCount block
  if replicas.length < desiredReplicas then
    match balanceUp env block.size (desiredReplicas - replicas.length) block with
    | (Except.error e, w) => (Except.error (RunErr.app e), w)
    | (Except.ok b, true) => (Except.ok b, true)
    | (Except.ok b, false) =>
      match updateFrontendState env b with
      | (Except.error e, _) => (Except.error (RunErr.app e), false)
      | (Except.ok _, _) => (Except.ok b, false)
  else if replicas.length > desiredReplicas then
    match balanceDownLoop env replicas block.node desiredReplicas
        (replicas.length - desiredReplicas) block with
    | (Except.error e, _) => (Except.error e, false)
    | (Except.ok b, _) =>
      match updateFrontendState env b with
      | (Except.error e, _) => (Except.error (RunErr.app e), false)
      | (Except.ok _, _) => (Except.ok b, false)
  else
    if block.locality = "remote" then
      match env.getNodeDisks block.node with
      | [] =>
        match updateFrontendState env block with
        | (Except.error e, _) => (Except.error (RunErr.app e), true)
        | (Except.ok _, _) => (Except.ok block, true)
      | _ :: _ => (Except.error (RunErr.jsReference "updated"), false)
    else
      match updateFrontendState env block with
      | (Except.error e, _) => (Except.error (RunErr.app e), false)
      | (Except.ok _, _) => (Except.ok block, false)

/-- A pod lifecycle event as delivered to the `kubernetes.pods.modified`
handler: `metadata.uid`, `metadata.namespace`, `status.phase`,
`status.podIP`. -/
structure PodEvent where
  uid : String
  ns : String
  phase : String
  podIP : String
deriving Repr, DecidableEq

/-- The replica loop of the controller-Running branch, lines 3657-3660:
`addReplicaToFrontend` is awaited for every replica WITHOUT a catch, so its
first failure propagates. -/
def addAllReplicas (env : Env) (block : Block) :
    List Replica → Except MErr Unit
  | [] => Except.ok ()
  | r :: rs =>
    match addReplicaToFrontend env block r with
    | (Except.error e, _) => Except.error e
    | (Except.ok _, _) => addAllReplicas env block rs

/-- The replica-pod dispatch of the `kubernetes.pods.modified` handler,
lines 3684-3729, reached when the pod is not the controller (or the
controller sub-branches do not fire).  The result triple is
(outcome, lock acquired, lock released).  Running and unhealthy: the replica
is marked healthy with the pod's ip/endpoint, persisted, then
`addReplicaToFrontend` (line 3704) and `updateFrontendState` (line 3706) are
awaited WITHOUT a catch — an error from either propagates out of the
handler and the final `lock.release` (line 3729) is never executed.
Terminating and healthy: `removeReplicaFromFrontend` is caught and only
logged (lines 3709-3712, so its command result cannot fail the handler),
the replica is cleared and persisted, then `updateFrontendState`
(line 3727) is again awaited without a catch. -/
def podsModifiedReplica (env : Env) (pod : PodEvent) (block : Block) :
    Except MErr Unit × Bool × Bool :=
  match block.replicas.find? (fun r => r.pod == some pod.uid) with
  | none => (Except.ok (), true, true)
  | some replica =>
    if pod.phase = "Running" && !replica.healthy then
      let r2 : Replica := { replica with
        healthy := true, status := "healthy", ip := some pod.podIP,
        endpoint := some ("tcp://" ++ pod.podIP ++ ":10000") }
      let blockM : Block := { block with
        replicas := block.replicas.map (fun x => if x.id = replica.id then r2 else x) }
      match addReplicaToFrontend env blockM r2 with
      | (Except.error e, _) => (Except.error e, true, false)
      | (Except.ok _, _) =>
        match updateFrontendState env blockM with
        | (Except.error e, _) => (Except.error e, true, false)
        | (Except.ok _, _) => (Except.ok (), true, true)
    else if pod.phase = "Terminating" && replica.healthy then
      let r2 : Replica := { replica with
        pod := none, healthy := false, status := "unhealthy",
        ip := none, endpoint := none }
      let blockM : Block := { block with
        replicas := block.replicas.map (fun x => if x.id = replica.id then r2 else x) }
      match updateFrontendState env blockM with
      | (Except.error e, _) => (Except.error e, true, false)
      | (Except.ok _, _) => (Except.ok (), true, true)
    else (Except.ok (), true, true)

/-- The `kubernetes.pods.modified` event handler, lines 3632-3730.  The
result triple is (outcome, lock acquired, lock released).  A namespace
mismatch returns before acquiring the process-wide "blocks" lock; a pod
matching no block releases and returns.  Controller pod, Running and not
online: the entity is set online and every replica is pushed through
`addReplicaToFrontend` (line 3658) and then `updateFrontendState`
(line 3662), both awaited WITHOUT a catch, so an error from either
propagates out of the handler with the lock still held; on success the lock
is released.  Controller pod, Terminating and online: the entity is flipped
offline (`online/mounted/frontendState` false, `device` null) and the lock
is released.  Any other controller-pod phase falls through to the replica
dispatch, as in the source.  Entity-store writes are modelled as pure
updates that always succeed. -/
def podsModified (env : Env) (cfgNs : String) (pod : PodEvent)
    (blockOpt : Option Block) : Except MErr Unit × Bool × Bool :=
  if pod.ns ≠ cfgNs then (Except.ok (), false, false)
  else
    match blockOpt with
    | none => (Except.ok (), true, true)
    | some block =>
      if block.controller == some pod.uid then
        if pod.phase = "Running" && !block.online then
          let updated : Block := { block with online := true }
          match addAllReplicas env updated updated.replicas with
          | Except.error e => (Except.error e, true, false)
          | Except.ok _ =>
            match updateFrontendState env updated with
            | (Except.error e, _) => (Except.error e, true, false)
            | (Except.ok _, _) => (Except.ok (), true, true)
        else if pod.phase = "Terminating" && block.online then
          (Except.ok (), true, true)
        else podsModifiedReplica env pod block
      else podsModifiedReplica env pod block

/-- Concrete environment used by witnesses: the controller pod of block
"v1" exists and is Running; the engine echoes every command on stdout with
empty stderr; `longhorn info` output does not parse, so frontend-state
updates are skipped; the node query of the disks service is empty. -/
def envRun : Env where
  readPod := fun _ _ name =>
    if name = "v1" then some ⟨"uid-ctl", "Running", "10.0.0.9"⟩ else none
  engineExec := fun cmd => ⟨String.intercalate " " cmd, ""⟩
  resolveNode := fun n => some ⟨n, n ++ "-host"⟩
  provisionFolder := fun pre d => ⟨pre ++ "-f-" ++ d, "/mnt/" ++ pre ++ "-" ++ d⟩
  resolveFolder := fun f => ⟨f, "/mnt/" ++ f⟩
  createPod := fun name => some ⟨"uid-" ++ name, "Pending", ""⟩
  getNodeDisks := fun _ => []
  availableDisks := fun _ _ _ => []
  parseInfo := fun _ => none
  freshId := "fresh-id"
  moniker := "brave-tiny-fox"

/-- A healthy attached replica on node "n-2", used by witness inputs. -/
def replica1 : Replica where
  id := "r-1"
  pod := some "uid-r-1"
  name := "block-replica-v1-brave-tiny-fox"
  disk := "d-2"
  node := "n-2"
  folder := "f-r-1"
  healthy := true
  attached := true
  status := "healthy"
  ip := some "10.0.0.11"
  endpoint := some "tcp://10.0.0.11:10000"

/-- A second healthy replica on node "n-3". -/
def replica2 : Replica :=
  { replica1 with
    id := "r-2", pod := some "uid-r-2", disk := "d-3", node := "n-3",
    folder := "f-r-2", ip := some "10.0.0.12",
    endpoint := some "tcp://10.0.0.12:10000" }

/-- A third healthy replica hosted on the block's own node "n-1". -/
def replica3 : Replica :=
  { replica1 with
    id := "r-3", pod := some "uid-r-3", disk := "d-4", node := "n-1",
    folder := "f-r-3", ip := some "10.0.0.13",
    endpoint := some "tcp://10.0.0.13:10000" }

/-- An online block "v1" with one replica, used by witness inputs. -/
def blockOnline : Block where
  id := "b-1"
  name := "v1"
  size := 10
  node := "n-1"
  cluster := "c-1"
  ns := "storage"
  controller := some "uid-ctl"
  device := some "/dev/longhorn/v1"
  mountPoint := "f-m"
  replicaCount := 3
  replicas := [replica1]
  formatted := true
  mounted := false
  online := true
  frontendState := true
  locality := "remote"
  healthy := true

/-- Environment whose engine answers every command with a stderr that starts
exactly at the words "cannot remove last replica if volume is up" — i.e. it
contains the claim's needle but NOT the source's leading-space needle. -/
def envLastReplica : Env :=
  { envRun with
    engineExec := fun _ => ⟨"", "cannot remove last replica if volume is up"⟩ }

/-- Environment with one disk on every node, but whose cluster-wide
available-disk query can serve only one replica. -/
def envProv : Env :=
  { envRun with
    getNodeDisks := fun _ => [⟨"d-1", "n-1"⟩],
    availableDisks := fun _ _ _ => [⟨"d-1", "n-1"⟩] }

/-- A block whose replica count already matches the desired count and whose
locality is "remote": the input of the locality branch of `balanceBlock`. -/
def blockEq : Block := { blockOnline with replicaCount := 1 }

/-- An over-replicated block (three replicas, two desired) whose tail
replica `replica3` sits on the block's own node, so the balance-down loop
skips it and completes. -/
def blockOver : Block :=
  { blockOnline with
    replicaCount := 2, replicas := [replica1, replica2, replica3] }

/-- An over-replicated block whose tail replica `replica2` is NOT on the
block's node: the first removal attempt of the balance-down loop fires on
it. -/
def blockOverCrash : Block :=
  { blockOnline with
    replicaCount := 2, replicas := [replica1, replica3, replica2] }

/-- State of one volume for the lifecycle transition system: the persisted
Block entity together with the actual phase of its controller pod in the
orchestrator (`none` = no such pod).  The pod phase evolves independently of
the entity; the entity only learns about it through events and explicit pod
reads. -/
structure MState where
  block : Block
  podPhase : Option String
deriving Repr, DecidableEq

/-- Precondition under which the command gateway `exec` succeeds (lines
4755-4790): a controller handle is recorded and the controller pod is
actually in Running phase. -/
def execOk (s : MState) : Prop :=
  s.block.controller ≠ none ∧ s.podPhase = some "Running"

/-- One step of the volume lifecycle, each constructor translated from the
state-mutating operation named in its comment.  `updateFrontendState`
(lines 5109-5145) is decomposed into its entity merge (`frontendMerge`,
line 5120) followed by its format / mount / unmount follow-ons, which are
the very `formatOp` / `mountOp` / `unmountOp` steps below (the follow-ons
run the same methods with default options). -/
inductive Step : MState → MState → Prop
    /-- The orchestrator moves the controller pod to an arbitrary phase
    (pod lifecycle is external to the control plane). -/
  | podEvolve (s : MState) (phase : Option String) :
      Step s { s with podPhase := phase }
    /-- `createBlockController`, lines 4800-4941: requires no controller
    handle; persists `controller = pod.uid`. -/
  | createController (s : MState) (uid : String) :
      s.block.controller = none →
      Step s { s with block := { s.block with controller := some uid } }
    /-- `deleteBlockController`, lines 5076-5107: requires a handle and an
    unmounted block; nulls `controller` and `online`. -/
  | deleteController (s : MState) :
      s.block.controller ≠ none → s.block.mounted = false →
      Step s { s with block :=
        { s.block with controller := none, online := false } }
    /-- `formatBlock`, lines 4148-4186: requires `!formatted || force`,
    `!mounted`, and a successful `exec`; sets `formatted = true`. -/
  | formatOp (s : MState) (force : Bool) :
      execOk s → ¬(s.block.formatted = true ∧ force = false) →
      s.block.mounted = false →
      Step s { s with block := { s.block with formatted := true } }
    /-- `mountBlock`, lines 4197-4231: requires `!mounted || force`,
    `formatted`, and a successful `exec`; sets `mounted = true`. -/
  | mountOp (s : MState) (force : Bool) :
      execOk s → ¬(s.block.mounted = true ∧ force = false) →
      s.block.formatted = true →
      Step s { s with block := { s.block with mounted := true } }
    /-- `unmountBlock`, lines 4242-4267: requires `mounted || force` and a
    successful `exec`; sets `mounted = false`. -/
  | unmountOp (s : MState) (force : Bool) :
      execOk s → ¬(s.block.mounted = false ∧ force = false) →
      Step s { s with block := { s.block with mounted := false } }
    /-- `kubernetes.pods.modified`, controller Running branch, lines
    3648-3666 (also `checkControllerPods` lines 4002-4008): a Running
    controller-pod observation on a non-online block sets `online = true`. -/
  | ctrlRunning (s : MState) (uid : String) :
      s.block.controller = some uid → s.block.online = false →
      Step s { s with block := { s.block with online := true } }
    /-- `kubernetes.pods.modified`, controller Terminating branch, lines
    3667-3681: flips the entity offline. -/
  | ctrlTerminating (s : MState) (uid : String) :
      s.block.controller = some uid → s.block.online = true →
      Step s { s with block := { s.block with
        online := false, mounted := false, frontendState := false,
        device := none } }
    /-- `checkControllerPods`, non-Running flip, lines 3990-3999: reads the
    actual pod phase. -/
  | checkOffline (s : MState) (phase : String) :
      s.podPhase = some phase → phase ≠ "Running" →
      Step s { s with block := { s.block with
        online := false, mounted := false, frontendState := false,
        device := none } }
    /-- `updateFrontendState` entity merge, line 5120: `frontendState` and
    `device` follow whatever the engine reports, `locality` and `healthy`
    are recomputed. -/
  | frontendMerge (s : MState) (fs hl : Bool) (dev : Option String)
      (loc : String) :
      Step s { s with block := { s.block with
        frontendState := fs, device := if fs then dev else none,
        locality := loc, healthy := hl } }
    /-- Replica-list mutations (createReplica, removeReplicaFromBlock,
    replica pod events, checkReplicaPods): none of them touches the
    formatted / mounted / online / frontendState flags. -/
  | replicasEvolve (s : MState) (rs : List Replica) :
      Step s { s with block := { s.block with replicas := rs } }

/-- Entity state right after `provisionBlock` creates the Block (lines
4047-4056 with the schema defaults of lines 554-582): no controller yet, no
replicas, all lifecycle flags false. -/
def InitState (s : MState) : Prop :=
  s.block.controller = none ∧ s.block.replicas = [] ∧
  s.block.formatted = false ∧ s.block.mounted = false ∧
  s.block.online = false ∧ s.block.frontendState = false ∧
  s.block.device = none

/-- States reachable from a freshly provisioned volume by any sequence of
operations and pod events. -/
inductive Reachable : MState → Prop
  | init (s : MState) : InitState s → Reachable s
  | step (s t : MState) : Reachable s → Step s t → Reachable t

/-- A freshly provisioned volume state used by the lifecycle trace. -/
def mState0 : MState where
  block :=
    { blockOnline with
      controller := none, replicas := [], formatted := false,
      mounted := false, online := false, frontendState := false,
      device := none, locality := "unknown", healthy := false }
  podPhase := none

/-- `mState0` after `createBlockController` records the pod handle. -/
def mState1 : MState :=
  { mState0 with block := { mState0.block with controller := some "uid-ctl" } }

/-- `mState1` once the orchestrator actually runs the controller pod (no
event processed yet, so the entity still has `online = false`). -/
def mState2 : MState := { mState1 with podPhase := some "Running" }

/-- `mState2` after the REST `format` action succeeds. -/
def mState3 : MState :=
  { mState2 with block := { mState2.block with formatted := true } }

/-- `mState3` after the REST `mount` action succeeds: mounted while
`online` and `frontendState` are both still false. -/
def mState4 : MState :=
  { mState3 with block := { mState3.block with mounted := true } }

end BlockStorage

namespace BlockStorage

/-- Claim C2: the command gateway `exec(block, argv)` fails `NoController`
(404 NO_CONTROLLER) when `block.controller` is null; otherwise, when reading
the pod named `block.name` in `(block.cluster, block.namespace)` yields no
pod it fails `PodNotFound`; otherwise, when that pod's `status.phase` is not
"Running" it fails `PodNotRunning`; otherwise it issues exactly the given
argv through the orchestrator exec API; and no engine command is issued in
any of the three failure cases. -/
theorem exec_gateway_spec (env : Env) (block : Block) (cmd : List String) :
    (block.controller = none →
      exec env block cmd = (Except.error ⟨404, "NO_CONTROLLER"⟩, [])) ∧
    (block.controller ≠ none →
      env.readPod block.cluster block.ns block.name = none →
      exec env block cmd = (Except.error ⟨404, "POD_NOT_FOUND"⟩, [])) ∧
    (∀ pod, block.controller ≠ none →
      env.readPod block.cluster block.ns block.name = some pod →
      pod.phase ≠ "Running" →
      exec env block cmd = (Except.error ⟨500, "POD_NOT_RUNNING"⟩, [])) ∧
    (∀ pod, block.controller ≠ none →
      env.readPod block.cluster block.ns block.name = some pod →
      pod.phase = "Running" →
      exec env block cmd = (Except.ok (env.engineExec cmd), [cmd])) := by
  refine ⟨?_, ?_, ?_, ?_⟩
  · intro hc
    simp [exec, hc]
  · intro hc hp
    cases hcc : block.controller with
    | none => exact absurd hcc hc
    | some u => simp [exec, hcc, hp]
  · intro pod hc hp hph
    cases hcc : block.controller with
    | none => exact absurd hcc hc
    | some u => simp [exec, hcc, hp, hph]
  · intro pod hc hp hph
    cases hcc : block.controller with
    | none => exact absurd hcc hc
    | some u => simp [exec, hcc, hp, hph]

/-- Witness for `exec_gateway_spec`: at a concrete offline-controller block
the gateway fails NO_CONTROLLER without issuing any command, and at
`blockOnline` the command goes through verbatim. -/
theorem exec_gateway_spec_witness :
    exec envRun { blockOnline with controller := none } ["longhorn", "info"] =
      (Except.error ⟨404, "NO_CONTROLLER"⟩, []) ∧
    exec envRun blockOnline ["longhorn", "info"] =
      (Except.ok (envRun.engineExec ["longhorn", "info"]), [["longhorn", "info"]]) := by
  constructor
  · exact (exec_gateway_spec envRun { blockOnline with controller := none }
      ["longhorn", "info"]).1 rfl
  · exact (exec_gateway_spec envRun blockOnline ["longhorn", "info"]).2.2.2
      ⟨"uid-ctl", "Running", "10.0.0.9"⟩ (by simp [blockOnline]) rfl rfl

/-- Claim C3, code evaluation: on a block with `online = false` every one
of the twelve snapshot actions (create, revert, list, remove, purge,
purge-status, info, clone, clone-status, hash, hash-cancel, hash-status)
does fail before issuing any engine command — but NOT with the
400 BlockOffline (BAD_REQUEST) error the claim states: the guard executes
`return MoleculerClientError(...)` without `new` (e.g. lines 3104-3108),
and invoking an ES6 class as a function throws a TypeError, so the 400
error object is never constructed and the handler fails with the TypeError
instead. -/
theorem snapshot_actions_offline_typeerror (env : Env) (block : Block)
    (snapshotName addr vol inst : String) (skipInProgress : Bool)
    (hoff : block.online = false) :
    createSnapshotAction env (some block) = (Except.error noNewTypeError, []) ∧
    revertSnapshotAction env (some block) snapshotName = (Except.error noNewTypeError, []) ∧
    listSnapshotsAction env (some block) = (Except.error noNewTypeError, []) ∧
    removeSnapshotAction env (some block) snapshotName = (Except.error noNewTypeError, []) ∧
    purgeSnapshotsAction env (some block) skipInProgress = (Except.error noNewTypeError, []) ∧
    purgeSnapshotsStatusAction env (some block) = (Except.error noNewTypeError, []) ∧
    getSnapshotInfoAction env (some block) = (Except.error noNewTypeError, []) ∧
    cloneSnapshotAction env (some block) snapshotName addr vol inst = (Except.error noNewTypeError, []) ∧
    cloneSnapshotStatusAction env (some block) snapshotName = (Except.error noNewTypeError, []) ∧
    startSnapshotHashAction env (some block) snapshotName = (Except.error noNewTypeError, []) ∧
    cancelSnapshotHashAction env (some block) snapshotName = (Except.error noNewTypeError, []) ∧
    getSnapshotHashStatusAction env (some block) snapshotName = (Except.error noNewTypeError, []) := by
  refine ⟨?_, ?_, ?_, ?_, ?_, ?_, ?_, ?_, ?_, ?_, ?_, ?_⟩ <;>
    simp [createSnapshotAction, revertSnapshotAction, listSnapshotsAction,
      removeSnapshotAction, purgeSnapshotsAction, purgeSnapshotsStatusAction,
      getSnapshotInfoAction, cloneSnapshotAction, cloneSnapshotStatusAction,
      startSnapshotHashAction, cancelSnapshotHashAction,
      getSnapshotHashStatusAction, snapshotGuard, hoff]

/-- Witness for `snapshot_actions_offline_typeerror` at the concrete
offline block. -/
theorem snapshot_actions_offline_typeerror_witness :
    ({ blockOnline with online := false } : Block).online = false ∧
    createSnapshotAction envRun (some { blockOnline with online := false }) =
      (Except.error noNewTypeError, []) := by
  refine ⟨rfl, ?_⟩
  exact (snapshot_actions_offline_typeerror envRun
    { blockOnline with online := false } "s1" "a" "v" "i" false rfl).1

/-- Claim C4, counterexample: the code matches stderr against the needle
`" cannot remove last replica if volume is up"` with a leading space
(line 5487), not against the claim's
`"cannot remove last replica if volume is up"`.  At a concrete input whose
stderr is exactly the claim's needle — so the claim predicts a
CannotRemoveLastReplica failure — `removeReplicaFromFrontend` succeeds and
detaches the replica. -/
theorem removeReplica_claim_counterexample :
    subMatch "cannot remove last replica if volume is up".toList
      (envLastReplica.engineExec
        ["longhorn", "rm-replica", "tcp://10.0.0.11:10000"]).stderr.toList = true ∧
    removeReplicaFromFrontend envLastReplica blockOnline replica1 =
      (Except.ok { replica1 with attached := false },
        [["longhorn", "rm-replica", "tcp://10.0.0.11:10000"]]) := by
  constructor
  · decide
  · rfl

/-- Claim C4, amended: `RemoveReplicaFromFrontend(block, replica)` fails
NoReplicaEndpoint (500 NO_REPLICA_ENDPOINT) when `replica.endpoint` is null,
issuing no command; otherwise it runs `longhorn rm-replica <endpoint>`
(command-gateway failures propagate) and fails CannotRemoveLastReplica
exactly when the command's stderr contains the substring
`" cannot remove last replica if volume is up"` WITH ITS LEADING SPACE
(substring-wise match); when it does not fail, `replica.attached` is set to
false. -/
theorem removeReplica_spec (env : Env) (block : Block) (replica : Replica) :
    (replica.endpoint = none →
      removeReplicaFromFrontend env block replica =
        (Except.error ⟨500, "NO_REPLICA_ENDPOINT"⟩, [])) ∧
    (∀ ep, replica.endpoint = some ep →
      (∀ e tr, exec env block ["longhorn", "rm-replica", ep] = (Except.error e, tr) →
        removeReplicaFromFrontend env block replica = (Except.error e, tr)) ∧
      (∀ res tr, exec env block ["longhorn", "rm-replica", ep] = (Except.ok res, tr) →
        tr = [["longhorn", "rm-replica", ep]] ∧
        (subMatch rmReplicaNeedle res.stderr.toList = true →
          removeReplicaFromFrontend env block replica =
            (Except.error ⟨500, "CANNOT_REMOVE_LAST_REPLICA"⟩, tr)) ∧
        (subMatch rmReplicaNeedle res.stderr.toList = false →
          removeReplicaFromFrontend env block replica =
            (Except.ok { replica with attached := false }, tr)))) := by
  constructor
  · intro hep
    simp [removeReplicaFromFrontend, hep]
  · intro ep hep
    constructor
    · intro e tr hex
      simp [removeReplicaFromFrontend, hep, hex]
    · intro res tr hex
      refine ⟨?_, ?_, ?_⟩
      · unfold exec at hex
        cases hcc : block.controller with
        | none => simp [hcc] at hex
        | some u =>
          rw [hcc] at hex
          cases hp : env.readPod block.cluster block.ns block.name with
          | none => simp [hp] at hex
          | some pod =>
            rw [hp] at hex
            by_cases hph : pod.phase = "Running"
            · simp [hph] at hex
              exact hex.2.symm
            · simp [hph] at hex
      · intro hsub
        simp [removeReplicaFromFrontend, hep, hex, hsub]
        exact hsub
      · intro hsub
        simp [removeReplicaFromFrontend, hep, hex, hsub]
        exact hsub

/-- Witness for `removeReplica_spec`: applied at `blockOnline` and
`replica1` under an engine whose stderr carries the leading-space needle;
the operation fails CANNOT_REMOVE_LAST_REPLICA, and with an empty stderr it
detaches the replica. -/
theorem removeReplica_spec_witness :
    removeReplicaFromFrontend
        { envRun with engineExec := fun _ =>
            ⟨"", " cannot remove last replica if volume is up"⟩ }
        blockOnline replica1 =
      (Except.error ⟨500, "CANNOT_REMOVE_LAST_REPLICA"⟩,
        [["longhorn", "rm-replica", "tcp://10.0.0.11:10000"]]) ∧
    removeReplicaFromFrontend
        { envRun with engineExec := fun _ => ⟨"", ""⟩ } blockOnline replica1 =
      (Except.ok { replica1 with attached := false },
        [["longhorn", "rm-replica", "tcp://10.0.0.11:10000"]]) := by
  constructor
  · exact (((removeReplica_spec
      { envRun with engineExec := fun _ =>
          ⟨"", " cannot remove last replica if volume is up"⟩ }
      blockOnline replica1).2 "tcp://10.0.0.11:10000" rfl).2
      ⟨"", " cannot remove last replica if volume is up"⟩
      [["longhorn", "rm-replica", "tcp://10.0.0.11:10000"]] rfl).2.1 (by decide)
  · exact (((removeReplica_spec
      { envRun with engineExec := fun _ => ⟨"", ""⟩ }
      blockOnline replica1).2 "tcp://10.0.0.11:10000" rfl).2
      ⟨"", ""⟩ [["longhorn", "rm-replica", "tcp://10.0.0.11:10000"]] rfl).2.2 (by decide)

/-- Claim C8: `deleteBlockController` on a block whose controller is null
fails with a 404 ControllerNotFound error, deletes no pod and leaves the
block unchanged; and the 409 ControllerMounted failure can only arise when a
controller handle exists. -/
theorem deleteController_no_controller (block : Block) :
    (block.controller = none →
      deleteBlockController block =
        (Except.error ⟨404, "BLOCK_CONTROLLER_NOT_FOUND"⟩, block, [])) ∧
    ((deleteBlockController block).1 =
        Except.error ⟨409, "BLOCK_CONTROLLER_MOUNTED"⟩ →
      block.controller ≠ none) := by
  constructor
  · intro hc
    simp [deleteBlockController, hc]
  · intro h409 hc
    simp [deleteBlockController, hc] at h409

/-- Witness for `deleteController_no_controller` at a concrete block without
a controller handle. -/
theorem deleteController_no_controller_witness :
    deleteBlockController { blockOnline with controller := none } =
      (Except.error ⟨404, "BLOCK_CONTROLLER_NOT_FOUND"⟩,
        { blockOnline with controller := none }, []) :=
  (deleteController_no_controller { blockOnline with controller := none }).1 rfl

/-- Claim C9: when `checkControllerPods` finds the controller pod present
but in a phase other than "Running", it updates the Block with exactly
`online = false, mounted = false, frontendState = false, device = null`,
and every other Block field is left unmodified. -/
theorem checkControllerPods_offline_flip (env : Env) (block : Block)
    (pod : PodInfo)
    (hp : env.readPod block.cluster block.ns block.name = some pod)
    (hph : pod.phase ≠ "Running") :
    checkControllerPods env block =
      Except.ok { block with
        online := false, mounted := false, frontendState := false,
        device := none } ∧
    ∀ b, checkControllerPods env block = Except.ok b →
      b.online = false ∧ b.mounted = false ∧ b.frontendState = false ∧
      b.device = none ∧
      b.id = block.id ∧ b.name = block.name ∧ b.size = block.size ∧
      b.node = block.node ∧ b.cluster = block.cluster ∧ b.ns = block.ns ∧
      b.controller = block.controller ∧ b.mountPoint = block.mountPoint ∧
      b.replicaCount = block.replicaCount ∧ b.replicas = block.replicas ∧
      b.formatted = block.formatted ∧ b.locality = block.locality ∧
      b.healthy = block.healthy := by
  have hres : checkControllerPods env block =
      Except.ok { block with
        online := false, mounted := false, frontendState := false,
        device := none } := by
    simp [checkControllerPods, hp, hph]
  refine ⟨hres, ?_⟩
  intro b hb
  rw [hres] at hb
  cases hb
  simp

/-- In a responsive environment (`resolveNode` and `createPod` never return
null), `createReplica` succeeds and appends exactly one replica. -/
theorem createReplica_responsive (env : Env) (block : Block) (disk : Disk)
    (hres : ∀ n, (env.resolveNode n).isSome)
    (hpod : ∀ n, (env.createPod n).isSome) :
    ∃ r, createReplica env block disk =
      Except.ok { block with replicas := block.replicas ++ [r] } := by
  cases hn : env.resolveNode disk.node with
  | none => exact absurd (hres disk.node) (by simp [hn])
  | some node =>
    cases hn2 : env.resolveNode node.id with
    | none => exact absurd (hres node.id) (by simp [hn2])
    | some node2 =>
      cases hp : env.createPod
          ("block-replica-" ++ block.name ++ "-" ++ env.moniker) with
      | none =>
        exact absurd (hpod ("block-replica-" ++ block.name ++ "-" ++ env.moniker))
          (by simp [hp])
      | some pod =>
        refine ⟨⟨env.freshId, some pod.uid,
          "block-replica-" ++ block.name ++ "-" ++ env.moniker,
          disk.id, node.id, (env.provisionFolder "block-replica" disk.id).id,
          false, false, "pending", none, none⟩, ?_⟩
        simp [createReplica, hn, createReplicaPod, hn2, hp]

/-- In a responsive environment the disk loop of `provisionBlock` succeeds
and creates one replica per disk. -/
theorem createReplicasOnDisks_responsive (env : Env)
    (hres : ∀ n, (env.resolveNode n).isSome)
    (hpod : ∀ n, (env.createPod n).isSome) :
    ∀ (disks : List Disk) (block : Block),
      ∃ b, createReplicasOnDisks env block disks = Except.ok b ∧
        b.replicas.length = block.replicas.length + disks.length := by
  intro disks
  induction disks with
  | nil => intro block; exact ⟨block, rfl, by simp [createReplicasOnDisks]⟩
  | cons d ds ih =>
    intro block
    obtain ⟨r, hr⟩ := createReplica_responsive env block d hres hpod
    obtain ⟨b, hb, hlen⟩ := ih { block with replicas := block.replicas ++ [r] }
    refine ⟨b, ?_, ?_⟩
    · simp [createReplicasOnDisks, hr, hb]
    · simp only [List.length_append, List.length_cons, List.length_nil]
        at hlen ⊢
      omega

/-- Claim C7: when `provisionBlock` passes its preconditions but the
available-disks query returns fewer than `replicas` disks (and the external
collaborators are responsive), the operation completes successfully, creates
exactly one replica per returned disk, raises the warning of lines
4081-4084, and returns the Block with `replicas.length` below the request. -/
theorem provision_fewer_disks (env : Env)
    (frontend cluster nsCfg name : String) (node : NodeInfo)
    (size replicas : Nat)
    (hres : ∀ n, (env.resolveNode n).isSome)
    (hpod : ∀ n, (env.createPod n).isSome)
    (hdisks : env.getNodeDisks node.id ≠ [])
    (hshort : (env.availableDisks (size * 1024) [] replicas).length < replicas) :
    ∃ b, provisionBlock env frontend cluster nsCfg name node size replicas =
        Except.ok (b, true) ∧
      b.replicas.length = (env.availableDisks (size * 1024) [] replicas).length ∧
      b.replicas.length < replicas := by
  cases hd : env.getNodeDisks node.id with
  | nil => exact absurd hd hdisks
  | cons d0 ds =>
    cases hn : env.resolveNode node.id with
    | none => exact absurd (hres node.id) (by simp [hn])
    | some nodeR =>
      cases hp : env.createPod name with
      | none => exact absurd (hpod name) (by simp [hp])
      | some pod =>
        obtain ⟨b, hb, hlen⟩ := createReplicasOnDisks_responsive env hres hpod
          (env.availableDisks (size * 1024) [] replicas)
          { id := env.freshId, name := name, size := size, node := node.id,
            cluster := cluster, ns := nsCfg,
            controller := some pod.uid, device := none,
            mountPoint := (env.provisionFolder "block" d0.id).id,
            replicaCount := replicas, replicas := [],
            formatted := false, mounted := false, online := false,
            frontendState := false, locality := "unknown", healthy := false }
        simp at hlen
        refine ⟨b, ?_, hlen, by omega⟩
        simp only [provisionBlock, hd, createBlockController, hn, hp, hb]
        have : decide (b.replicas.length < replicas) = true := by
          simp [hlen]
          omega
        simp [this]

/-- Witness for `provision_fewer_disks`: provisioning "v2" with 3 requested
replicas while only one disk is available yields a successful block with a
single replica and the warning flag set. -/
theorem provision_fewer_disks_witness :
    ∃ b, provisionBlock envProv "tgt-blockdev" "c-1" "storage" "v2"
        ⟨"n-1", "n-1-host"⟩ 10 3 = Except.ok (b, true) ∧
      b.replicas.length = 1 ∧ b.replicas.length < 3 := by
  obtain ⟨b, h1, h2, h3⟩ := provision_fewer_disks envProv "tgt-blockdev" "c-1"
    "storage" "v2" ⟨"n-1", "n-1-host"⟩ 10 3
    (fun n => rfl) (fun n => rfl) (by simp [envProv])
    (by simp [envProv])
  exact ⟨b, h1, by simpa [envProv] using h2, h3⟩

/-- Witness for `checkControllerPods_offline_flip`: the controller pod of
`blockOnline` is reported Pending, and the offline flip clears exactly the
four fields. -/
theorem checkControllerPods_offline_flip_witness :
    checkControllerPods
        { envRun with readPod := fun _ _ _ => some ⟨"uid-ctl", "Pending", ""⟩ }
        blockOnline =
      Except.ok { blockOnline with
        online := false, mounted := false, frontendState := false,
        device := none } :=
  (checkControllerPods_offline_flip
    { envRun with readPod := fun _ _ _ => some ⟨"uid-ctl", "Pending", ""⟩ }
    blockOnline ⟨"uid-ctl", "Pending", ""⟩ rfl (by decide)).1

/-- Claim C6, code evaluation: in the equal-count locality branch of
`balanceBlock`, when `block.node` has disks the loop body reaches
`this.createReplica(ctx, updated, disk)` (line 3851) and crashes with a
JavaScript ReferenceError on the undefined identifier `updated` — no
replica is created; with no disks it only warns and completes. -/
theorem balance_locality_reference_error :
    balanceBlock envProv blockEq =
      (Except.error (RunErr.jsReference "updated"), false) ∧
    balanceBlock envRun blockEq = (Except.ok blockEq, true) :=
  ⟨rfl, rfl⟩

/-- The balance-down loop can only return successfully by skipping every
index it processes: `removeReplicaFromBlock` always throws, so a successful
result is the input entity, untouched. -/
theorem balanceDownLoop_ok_unchanged (env : Env) (orig : List Replica)
    (blockNode : String) (desired : Nat) :
    ∀ c b b2 tr,
      balanceDownLoop env orig blockNode desired c b = (Except.ok b2, tr) →
      b2 = b := by
  intro c
  induction c with
  | zero =>
    intro b b2 tr h
    simp [balanceDownLoop] at h
    exact h.1.symm
  | succ c ih =>
    intro b b2 tr h
    unfold balanceDownLoop at h
    cases hg : orig[desired + c]? with
    | none =>
      rw [hg] at h
      exact ih b b2 tr h
    | some r =>
      simp only [hg] at h
      by_cases hn : r.node = blockNode
      · rw [if_pos hn] at h
        exact ih b b2 tr h
      · rw [if_neg hn] at h
        simp [removeReplicaFromBlock] at h

/-- Claim C10, code evaluation: the over-replicated branch of `balanceBlock`
never removes any replica from the entity at all.  A replica on `block.node`
is skipped before any call, and the first tail replica NOT on `block.node`
makes `removeReplicaFromBlock` throw a TypeError at line 5343
(`updated.replicas` with `updated === undefined`), aborting the balance with
the entity untouched (`blockOverCrash`); when every tail replica is local
the loop completes and the block comes back unchanged, its local tail
replica still present and its count still above `replicaCount`
(`blockOver`). -/
theorem balance_over_typeerror :
    balanceBlock envRun blockOverCrash =
      (Except.error (RunErr.jsType "updated.replicas"), false) ∧
    balanceBlock envRun blockOver = (Except.ok blockOver, false) ∧
    replica3 ∈ blockOver.replicas ∧ replica3.node = blockOver.node ∧
    2 < blockOver.replicas.length :=
  ⟨rfl, rfl, by decide, rfl, by decide⟩

/-- Claim C5, code evaluation: the `kubernetes.pods.modified` handler does
NOT release the "blocks" lock on every exit path.  At a concrete event — the
controller pod of an offline block reports Running, and the engine answers
the resulting `add-replica` command with the stderr
"Error running add replica command" — the handler propagates the
LONGHORN_ADD_REPLICA_ERROR thrown at line 3658 and terminates with the lock
still held (acquired = true, released = false).  On the no-matching-block
path the lock is released as the spec says. -/
theorem podsModified_lock_leak :
    podsModified
        { envRun with
          engineExec := fun _ => ⟨"", "Error running add replica command"⟩ }
        "storage" ⟨"uid-ctl", "storage", "Running", "10.0.0.9"⟩
        (some { blockOnline with online := false }) =
      (Except.error ⟨500, "LONGHORN_ADD_REPLICA_ERROR"⟩, true, false) ∧
    podsModified envRun "storage" ⟨"uid-ctl", "storage", "Running", "10.0.0.9"⟩
        none =
      (Except.ok (), true, true) :=
  ⟨rfl, rfl⟩

/-- Claim C1, counterexample: a reachable state with `mounted = true` but
`online = false` and `frontendState = false`.  The trace: provision the
volume (`mState0`), create its controller (`mState1`), let the orchestrator
actually run the controller pod before any pod event is processed
(`mState2`), then call the REST `format` and `mount` actions (`mState3`,
`mState4`).  `mountBlock` checks only `mounted`/`formatted` plus the exec
preconditions, never `online` or `frontendState`, so the mount succeeds. -/
theorem mounted_without_online_reachable :
    Reachable mState4 ∧ mState4.block.mounted = true ∧
    mState4.block.online = false ∧ mState4.block.frontendState = false := by
  refine ⟨?_, rfl, rfl, rfl⟩
  have h0 : Reachable mState0 :=
    Reachable.init mState0 ⟨rfl, rfl, rfl, rfl, rfl, rfl, rfl⟩
  have h1 : Reachable mState1 :=
    Reachable.step mState0 mState1 h0
      (Step.createController mState0 "uid-ctl" rfl)
  have h2 : Reachable mState2 :=
    Reachable.step mState1 mState2 h1
      (Step.podEvolve mState1 (some "Running"))
  have h3 : Reachable mState3 :=
    Reachable.step mState2 mState3 h2
      (Step.formatOp mState2 false ⟨by decide, rfl⟩ (by decide) rfl)
  exact Reachable.step mState3 mState4 h3
    (Step.mountOp mState3 false ⟨by decide, rfl⟩ (by decide) rfl)

/-- Claim C1, amended: over every reachable Block state, `mounted = true`
implies `formatted = true` (the only operation setting `mounted` requires
`formatted`, and `formatted` is never cleared); the stronger original claim
that `mounted` also implies `frontendState` and `online` fails, because
`mountBlock` checks neither flag. -/
theorem reachable_mounted_implies_formatted (s : MState)
    (h : Reachable s) (hm : s.block.mounted = true) :
    s.block.formatted = true := by
  induction h with
  | init s hs =>
    rw [hs.2.2.2.1] at hm
    exact absurd hm (by decide)
  | step s t hs hstep ih =>
    cases hstep with
    | podEvolve phase => exact ih hm
    | createController uid hc => exact ih hm
    | deleteController hc hmnt => exact ih hm
    | formatOp force hex hff hmnt => rfl
    | mountOp force hex hmf hfmt => exact hfmt
    | unmountOp force hex hmf => exact absurd hm Bool.false_ne_true
    | ctrlRunning uid hc => exact ih hm
    | ctrlTerminating uid hc => exact absurd hm Bool.false_ne_true
    | checkOffline phase hp => exact absurd hm Bool.false_ne_true
    | frontendMerge fs hl dev => exact ih hm
    | replicasEvolve rs => exact ih hm

/-- Witness for `reachable_mounted_implies_formatted`, applied at the
concrete reachable mounted state `mState4`. -/
theorem reachable_mounted_implies_formatted_witness :
    mState4.block.mounted = true ∧ mState4.block.formatted = true := by
  have h0 : Reachable mState0 :=
    Reachable.init mState0 ⟨rfl, rfl, rfl, rfl, rfl, rfl, rfl⟩
  have h1 : Reachable mState1 :=
    Reachable.step mState0 mState1 h0
      (Step.createController mState0 "uid-ctl" rfl)
  have h2 : Reachable mState2 :=
    Reachable.step mState1 mState2 h1
      (Step.podEvolve mState1 (some "Running"))
  have h3 : Reachable mState3 :=
    Reachable.step mState2 mState3 h2
      (Step.formatOp mState2 false ⟨by decide, rfl⟩ (by decide) rfl)
  have h4 : Reachable mState4 :=
    Reachable.step mState3 mState4 h3
      (Step.mountOp mState3 false ⟨by decide, rfl⟩ (by decide) rfl)
  exact ⟨rfl, reachable_mounted_implies_formatted mState4 h4 rfl⟩

end BlockStorage
